import Mathlib

/-!
Verification of the Flask tutorial application
`day-04-dockerfile-basics/Project-2/app.py`.

The application wires two routes to two stateless handlers:

* `home` (route `/`) returns a JSON object with the constant greeting
  message, the hostname read via `socket.gethostname()`, and
  `datetime.datetime.now().isoformat()`;
* `health` (route `/health`) returns the constant JSON object with the
  single key `status` mapped to `"healthy"`;

and, under `__main__`, starts the development server with
`app.run(host='0.0.0.0', port=5000, debug=True)`.

The embedding models the host environment (hostname and current naive
wall-clock datetime) as an explicit parameter, CPython's
`datetime.isoformat` rendering at the character level, the JSON bodies
as an inductive JSON value, and Flask's dispatch as an exact-path lookup
in the registered route table.
-/

/-- A naive (timezone-free) wall-clock datetime, as produced by Python's
`datetime.datetime.now()`: no `tzinfo` component is present. -/
structure NaiveDateTime where
  year : Nat
  month : Nat
  day : Nat
  hour : Nat
  minute : Nat
  second : Nat
  microsecond : Nat
deriving Repr, DecidableEq

/-- The field ranges Python's `datetime` constructor enforces
(`MINYEAR = 1`, `MAXYEAR = 9999`; the day bound `31` is the loosest
month-independent bound, which is all the formatting needs). -/
def ValidDT (d : NaiveDateTime) : Prop :=
  1 ≤ d.year ∧ d.year ≤ 9999 ∧
  1 ≤ d.month ∧ d.month ≤ 12 ∧
  1 ≤ d.day ∧ d.day ≤ 31 ∧
  d.hour ≤ 23 ∧ d.minute ≤ 59 ∧ d.second ≤ 59 ∧
  d.microsecond ≤ 999999

instance (d : NaiveDateTime) : Decidable (ValidDT d) := by
  unfold ValidDT; infer_instance

/-- Python's `datetime` comparison: lexicographic on the seven fields. -/
def dtLe (a b : NaiveDateTime) : Prop :=
  a.year < b.year ∨ (a.year = b.year ∧
    (a.month < b.month ∨ (a.month = b.month ∧
      (a.day < b.day ∨ (a.day = b.day ∧
        (a.hour < b.hour ∨ (a.hour = b.hour ∧
          (a.minute < b.minute ∨ (a.minute = b.minute ∧
            (a.second < b.second ∨ (a.second = b.second ∧
              a.microsecond ≤ b.microsecond)))))))))))

instance (a b : NaiveDateTime) : Decidable (dtLe a b) := by
  unfold dtLe; infer_instance

/-- The decimal digit characters, as emitted by `%d`-style formatting. -/
def digitChar (n : Nat) : Char :=
  match n with
  | 0 => '0'
  | 1 => '1'
  | 2 => '2'
  | 3 => '3'
  | 4 => '4'
  | 5 => '5'
  | 6 => '6'
  | 7 => '7'
  | 8 => '8'
  | _ => '9'

/-- Zero-padded two-digit rendering, as in C `%02d` (for arguments below
100, which is every use site in `isoformat`). -/
def pad2 (n : Nat) : List Char :=
  [digitChar (n / 10 % 10), digitChar (n % 10)]

/-- Zero-padded four-digit rendering, as in C `%04d`. -/
def pad4 (n : Nat) : List Char :=
  [digitChar (n / 1000 % 10), digitChar (n / 100 % 10),
   digitChar (n / 10 % 10), digitChar (n % 10)]

/-- Zero-padded six-digit rendering, as in C `%06d`. -/
def pad6 (n : Nat) : List Char :=
  [digitChar (n / 100000 % 10), digitChar (n / 10000 % 10),
   digitChar (n / 1000 % 10), digitChar (n / 100 % 10),
   digitChar (n / 10 % 10), digitChar (n % 10)]

/-- CPython's `datetime.isoformat()` with the default separator and
`timespec='auto'`: `YYYY-MM-DDTHH:MM:SS`, extended with `.ffffff` only
when the microsecond field is nonzero. -/
def isoformatChars (d : NaiveDateTime) : List Char :=
  pad4 d.year ++ '-' :: pad2 d.month ++ '-' :: pad2 d.day ++
  'T' :: pad2 d.hour ++ ':' :: pad2 d.minute ++ ':' :: pad2 d.second ++
  (if d.microsecond = 0 then [] else '.' :: pad6 d.microsecond)

/-- The timestamp string put into the greeting body:
`datetime.datetime.now().isoformat()` applied to the request-time clock. -/
def isoformat (d : NaiveDateTime) : String :=
  String.mk (isoformatChars d)

/-- Decode a decimal digit character (code-point arithmetic, as in
C's `c - '0'`); `none` on anything else. -/
def digitVal (c : Char) : Option Nat :=
  if '0' ≤ c ∧ c ≤ '9' then some (c.toNat - 48) else none

/-- Value of a two-digit decimal group. -/
def val2 (a b : Char) : Option Nat :=
  match digitVal a, digitVal b with
  | some x, some y => some (10 * x + y)
  | _, _ => none

/-- Value of a four-digit decimal group. -/
def val4 (a b c d : Char) : Option Nat :=
  match digitVal a, digitVal b, digitVal c, digitVal d with
  | some x, some y, some z, some w => some (1000 * x + 100 * y + 10 * z + w)
  | _, _, _, _ => none

/-- Value of a six-digit decimal group. -/
def val6 (a b c d e f : Char) : Option Nat :=
  match digitVal a, digitVal b, digitVal c, digitVal d, digitVal e, digitVal f with
  | some x, some y, some z, some w, some u, some v =>
      some (100000 * x + 10000 * y + 1000 * z + 100 * w + 10 * u + v)
  | _, _, _, _, _, _ => none

/-- Parser for the ISO-8601 shapes `isoformat` can emit
(`YYYY-MM-DDTHH:MM:SS` with an optional `.ffffff` tail); used to state
that the served timestamp parses back to the request-time instant. -/
def parseIsoChars (cs : List Char) : Option NaiveDateTime :=
  match cs with
  | c1 :: c2 :: c3 :: c4 :: c5 :: c6 :: c7 :: c8 :: c9 :: c10 ::
    c11 :: c12 :: c13 :: c14 :: c15 :: c16 :: c17 :: c18 :: c19 :: rest =>
    if c5 = '-' ∧ c8 = '-' ∧ c11 = 'T' ∧ c14 = ':' ∧ c17 = ':' then
      match val4 c1 c2 c3 c4, val2 c6 c7, val2 c9 c10,
            val2 c12 c13, val2 c15 c16, val2 c18 c19 with
      | some y, some mo, some da, some hh, some mi, some ss =>
        match rest with
        | [] => some ⟨y, mo, da, hh, mi, ss, 0⟩
        | c20 :: c21 :: c22 :: c23 :: c24 :: c25 :: c26 :: [] =>
          if c20 = '.' then
            match val6 c21 c22 c23 c24 c25 c26 with
            | some us => some ⟨y, mo, da, hh, mi, ss, us⟩
            | none => none
          else none
        | _ => none
      | _, _, _, _, _, _ => none
    else none
  | _ => none

/-- String-level entry point of the ISO-8601 parser. -/
def parseIso (s : String) : Option NaiveDateTime :=
  parseIsoChars s.data

lemma digitVal_digitChar (x : Nat) (h : x < 10) :
    digitVal (digitChar x) = some x := by
  interval_cases x <;> decide

@[simp] lemma digitVal_digitChar_mod (x : Nat) :
    digitVal (digitChar (x % 10)) = some (x % 10) :=
  digitVal_digitChar _ (Nat.mod_lt x (by decide))

lemma digitChar_isDigit (x : Nat) (h : x < 10) :
    (digitChar x).isDigit = true := by
  interval_cases x <;> decide

@[simp] lemma digitChar_mod_isDigit (x : Nat) :
    (digitChar (x % 10)).isDigit = true :=
  digitChar_isDigit _ (Nat.mod_lt x (by decide))

/-- Round trip: the parser recovers exactly the datetime that
`isoformat` rendered, for every datetime Python's constructor accepts. -/
theorem parseIso_isoformat (d : NaiveDateTime) (h : ValidDT d) :
    parseIso (isoformat d) = some d := by
  obtain ⟨y, mo, da, hh, mi, ss, us⟩ := d
  simp only [ValidDT] at h
  obtain ⟨hy1, hy2, hmo1, hmo2, hda1, hda2, hhh, hmi, hss, hus⟩ := h
  by_cases h0 : us = 0
  · simp only [parseIso, isoformat, isoformatChars, pad4, pad2, pad6, h0,
      if_pos rfl, List.cons_append, List.nil_append, List.append_nil]
    simp [parseIsoChars, val4, val2, val6, NaiveDateTime.mk.injEq]
    omega
  · simp only [parseIso, isoformat, isoformatChars, pad4, pad2, pad6,
      if_neg h0, List.cons_append, List.nil_append, List.append_nil]
    simp [parseIsoChars, val4, val2, val6, NaiveDateTime.mk.injEq]
    omega

/-! ## JSON values, responses, handlers -/

/-- The fragment of JSON that `jsonify` needs for this application:
strings and objects with ordered key/value fields. -/
inductive Json where
  | str : String → Json
  | obj : List (String × Json) → Json
deriving Repr

/-- A response body: either a JSON document produced by `jsonify`, or
the host framework's default HTML error page for an unmatched route. -/
inductive Body where
  | json : Json → Body
  | defaultErrorPage : Body
deriving Repr

/-- An HTTP response as the handlers produce it: `jsonify` sets status
200 and content type `application/json`. -/
structure Response where
  status : Nat
  contentType : String
  body : Body
deriving Repr

/-- The host state a request observes: the hostname
(`socket.gethostname()`) and the current wall clock
(`datetime.datetime.now()`), both read afresh at request time. -/
structure HostEnv where
  hostname : String
  now : NaiveDateTime

/-- An incoming HTTP request.  The handlers take no argument in the
source, so every field other than the path is ignored by dispatch. -/
structure Request where
  path : String
  method : String
  headers : List (String × String)
  query : String
  reqBody : String

/-- Handler `home` (route `/`): `jsonify` of the message, container and
timestamp fields, in the order the source writes them. -/
def home (env : HostEnv) : Response :=
  { status := 200
    contentType := "application/json"
    body := Body.json (Json.obj
      [("message", Json.str "Hello from Dockerized Flask!"),
       ("container", Json.str env.hostname),
       ("timestamp", Json.str (isoformat env.now))]) }

/-- Handler `health` (route `/health`): `jsonify` of the constant
status object. -/
def health : Response :=
  { status := 200
    contentType := "application/json"
    body := Body.json (Json.obj [("status", Json.str "healthy")]) }

/-- Identifiers of the two registered view functions. -/
inductive Handler where
  | home
  | health
deriving Repr, DecidableEq

/-- Run a view function on the host state it observes. -/
def runHandler : Handler → HostEnv → Response
  | Handler.home, env => home env
  | Handler.health, _ => health

/-- The observable state of the Flask application object: its URL map,
built by the two `@app.route` decorators.  Nothing else in the program
is mutable. -/
structure AppState where
  routes : List (String × Handler)
deriving Repr, DecidableEq

/-- The application as built at import time: exactly the routes `/` and
`/health`. -/
def initialApp : AppState :=
  { routes := [("/", Handler.home), ("/health", Handler.health)] }

/-- Flask's default response for a URL that matches no registered rule:
status 404 with the framework's HTML error page. -/
def notFound : Response :=
  { status := 404, contentType := "text/html", body := Body.defaultErrorPage }

/-- Exact-path lookup in the URL map. -/
def findHandler (st : AppState) (path : String) : Option Handler :=
  st.routes.lookup path

/-- Dispatch one request: look the path up in the URL map, run the
matched view function (which reads only host and clock state), or fall
back to the framework's 404.  The application state is returned so that
frame properties are statable. -/
def dispatch (st : AppState) (env : HostEnv) (req : Request) :
    AppState × Response :=
  match findHandler st req.path with
  | some h => (st, runHandler h env)
  | none => (st, notFound)

/-- Serve a stream of requests, each observing its own host snapshot,
until the stream ends (termination comes only from outside). -/
def serve (st : AppState) : List (HostEnv × Request) → AppState × List Response
  | [] => (st, [])
  | (env, req) :: rest =>
    let p := dispatch st env req
    let q := serve p.1 rest
    (q.1, p.2 :: q.2)

/-- The configuration `app.run` is started with. -/
structure ServerConfig where
  host : String
  port : Nat
  debug : Bool
deriving Repr, DecidableEq

/-- Modelled from the `__main__` block: the run configuration as a
function of the process environment variables and command-line
arguments, which the source never consults — the literals
`'0.0.0.0'`, `5000`, `True` are hard-coded. -/
def mainConfig (osEnviron : List (String × String)) (argv : List String) :
    ServerConfig :=
  { host := "0.0.0.0", port := 5000, debug := true }

/-! ## Accessors used to state the claims -/

/-- The list of keys of a JSON response body (empty for an error page). -/
def bodyKeys (r : Response) : List String :=
  match r.body with
  | Body.json (Json.obj l) => l.map Prod.fst
  | _ => []

/-- Look a field up in a JSON response body. -/
def bodyField (r : Response) (k : String) : Option Json :=
  match r.body with
  | Body.json (Json.obj l) => l.lookup k
  | _ => none

/-- Whether every field of a JSON object body is a non-empty string. -/
def fieldsNonEmptyStrings (r : Response) : Bool :=
  match r.body with
  | Body.json (Json.obj l) =>
      l.all fun p =>
        match p.2 with
        | Json.str s => decide (s ≠ "")
        | _ => false
  | _ => false

/-- No timezone designator in a rendered timestamp: no `Z`, no `+`, and
no `-` after the date part (the time part starts at index 11). -/
def noTzDesignator (s : String) : Bool :=
  s.data.all (fun c => decide (c ≠ 'Z') && decide (c ≠ '+')) &&
  (s.data.drop 11).all (fun c => decide (c ≠ '-'))

/-! ## Helper lemmas -/

lemma isoformatChars_ne_nil (d : NaiveDateTime) : isoformatChars d ≠ [] := by
  simp [isoformatChars, pad4]

lemma isoformat_ne_empty (d : NaiveDateTime) : isoformat d ≠ "" := by
  intro h
  exact isoformatChars_ne_nil d (by simpa [isoformat] using congrArg String.data h)

lemma digitChar_avoids (x : Nat) (h : x < 10) :
    digitChar x ≠ 'Z' ∧ digitChar x ≠ '+' ∧ digitChar x ≠ '-' := by
  interval_cases x <;> exact ⟨by decide, by decide, by decide⟩

@[simp] lemma digitChar_mod_ne_Z (x : Nat) : digitChar (x % 10) ≠ 'Z' :=
  (digitChar_avoids _ (Nat.mod_lt x (by decide))).1

@[simp] lemma digitChar_mod_ne_plus (x : Nat) : digitChar (x % 10) ≠ '+' :=
  (digitChar_avoids _ (Nat.mod_lt x (by decide))).2.1

@[simp] lemma digitChar_mod_ne_minus (x : Nat) : digitChar (x % 10) ≠ '-' :=
  (digitChar_avoids _ (Nat.mod_lt x (by decide))).2.2

lemma dispatch_fst (st : AppState) (env : HostEnv) (req : Request) :
    (dispatch st env req).1 = st := by
  unfold dispatch
  cases findHandler st req.path <;> rfl

lemma serve_fst (st : AppState) (l : List (HostEnv × Request)) :
    (serve st l).1 = st := by
  induction l generalizing st with
  | nil => rfl
  | cons hd tl ih =>
    obtain ⟨env, req⟩ := hd
    simp [serve, dispatch_fst, ih]

lemma serve_length (st : AppState) (l : List (HostEnv × Request)) :
    (serve st l).2.length = l.length := by
  induction l generalizing st with
  | nil => rfl
  | cons hd tl ih =>
    obtain ⟨env, req⟩ := hd
    simp [serve, ih]

/-! ## Claims -/

/-- C1: every request to `/` yields status 200 with a JSON body holding
exactly the keys `message`, `container`, `timestamp`; `message` is the
constant greeting, `container` is the hostname read at request time, and
the timestamp parses back (as ISO-8601) to the request-time instant. -/
theorem home_root_contract (env : HostEnv) (h : ValidDT env.now) :
    (home env).status = 200 ∧
    bodyKeys (home env) = ["message", "container", "timestamp"] ∧
    bodyField (home env) "message" =
      some (Json.str "Hello from Dockerized Flask!") ∧
    bodyField (home env) "container" = some (Json.str env.hostname) ∧
    bodyField (home env) "timestamp" = some (Json.str (isoformat env.now)) ∧
    parseIso (isoformat env.now) = some env.now :=
  ⟨rfl, rfl, rfl, rfl, rfl, parseIso_isoformat _ h⟩

/-- Witness for C1 at a concrete host snapshot. -/
theorem home_root_contract_witness :
    ValidDT ⟨2026, 10, 12, 7, 30, 15, 123456⟩ ∧
    ((home ⟨"c0ffee", ⟨2026, 10, 12, 7, 30, 15, 123456⟩⟩).status = 200 ∧
     bodyKeys (home ⟨"c0ffee", ⟨2026, 10, 12, 7, 30, 15, 123456⟩⟩) =
       ["message", "container", "timestamp"] ∧
     bodyField (home ⟨"c0ffee", ⟨2026, 10, 12, 7, 30, 15, 123456⟩⟩) "message" =
       some (Json.str "Hello from Dockerized Flask!") ∧
     bodyField (home ⟨"c0ffee", ⟨2026, 10, 12, 7, 30, 15, 123456⟩⟩) "container" =
       some (Json.str "c0ffee") ∧
     bodyField (home ⟨"c0ffee", ⟨2026, 10, 12, 7, 30, 15, 123456⟩⟩) "timestamp" =
       some (Json.str (isoformat ⟨2026, 10, 12, 7, 30, 15, 123456⟩)) ∧
     parseIso (isoformat ⟨2026, 10, 12, 7, 30, 15, 123456⟩) =
       some ⟨2026, 10, 12, 7, 30, 15, 123456⟩) :=
  ⟨by decide, home_root_contract ⟨"c0ffee", ⟨2026, 10, 12, 7, 30, 15, 123456⟩⟩ (by decide)⟩

/-- C2: every request to `/health` yields status 200 and the body is
exactly the one-key JSON object mapping `status` to `"healthy"`. -/
theorem health_contract :
    health.status = 200 ∧
    health.body = Body.json (Json.obj [("status", Json.str "healthy")]) :=
  ⟨rfl, rfl⟩

/-- C3: across two sequential requests to `/` whose wall-clock readings
are in non-decreasing order, the served timestamps parse back to
instants in non-decreasing order. -/
theorem timestamp_monotone (e1 e2 : HostEnv)
    (h1 : ValidDT e1.now) (h2 : ValidDT e2.now) (hseq : dtLe e1.now e2.now) :
    ∃ t1 t2 d1 d2,
      bodyField (home e1) "timestamp" = some (Json.str t1) ∧
      bodyField (home e2) "timestamp" = some (Json.str t2) ∧
      parseIso t1 = some d1 ∧ parseIso t2 = some d2 ∧ dtLe d1 d2 :=
  ⟨isoformat e1.now, isoformat e2.now, e1.now, e2.now, rfl, rfl,
    parseIso_isoformat _ h1, parseIso_isoformat _ h2, hseq⟩

/-- Witness for C3 on two concrete sequential clock readings. -/
theorem timestamp_monotone_witness :
    ValidDT ⟨2026, 10, 12, 7, 30, 15, 5⟩ ∧
    ValidDT ⟨2026, 10, 12, 7, 30, 16, 0⟩ ∧
    dtLe ⟨2026, 10, 12, 7, 30, 15, 5⟩ ⟨2026, 10, 12, 7, 30, 16, 0⟩ ∧
    (∃ t1 t2 d1 d2,
      bodyField (home ⟨"web", ⟨2026, 10, 12, 7, 30, 15, 5⟩⟩) "timestamp" =
        some (Json.str t1) ∧
      bodyField (home ⟨"web", ⟨2026, 10, 12, 7, 30, 16, 0⟩⟩) "timestamp" =
        some (Json.str t2) ∧
      parseIso t1 = some d1 ∧ parseIso t2 = some d2 ∧ dtLe d1 d2) :=
  ⟨by decide, by decide, by decide,
    timestamp_monotone ⟨"web", ⟨2026, 10, 12, 7, 30, 15, 5⟩⟩
      ⟨"web", ⟨2026, 10, 12, 7, 30, 16, 0⟩⟩ (by decide) (by decide) (by decide)⟩

/-- C4: in both handlers' responses every field is present and is a
non-empty string, provided the host reports a non-empty hostname. -/
theorem responses_fields_nonempty (env : HostEnv) (hh : env.hostname ≠ "") :
    bodyKeys (home env) = ["message", "container", "timestamp"] ∧
    fieldsNonEmptyStrings (home env) = true ∧
    bodyKeys health = ["status"] ∧
    fieldsNonEmptyStrings health = true := by
  refine ⟨rfl, ?_, rfl, by decide⟩
  simp [fieldsNonEmptyStrings, home, hh, isoformat_ne_empty env.now]

/-- Witness for C4 at a concrete non-empty hostname. -/
theorem responses_fields_nonempty_witness :
    ("web-1" : String) ≠ "" ∧
    (bodyKeys (home ⟨"web-1", ⟨2026, 10, 12, 7, 30, 15, 123456⟩⟩) =
       ["message", "container", "timestamp"] ∧
     fieldsNonEmptyStrings (home ⟨"web-1", ⟨2026, 10, 12, 7, 30, 15, 123456⟩⟩) = true ∧
     bodyKeys health = ["status"] ∧
     fieldsNonEmptyStrings health = true) :=
  ⟨by decide,
    responses_fields_nonempty ⟨"web-1", ⟨2026, 10, 12, 7, 30, 15, 123456⟩⟩ (by decide)⟩

/-- C5: the `container` field of two `/` responses agrees whenever the
two requests observe the same hostname, as they do within one process
lifetime. -/
theorem container_stable (e1 e2 : HostEnv) (h : e1.hostname = e2.hostname) :
    bodyField (home e1) "container" = bodyField (home e2) "container" :=
  calc bodyField (home e1) "container" = some (Json.str e1.hostname) := rfl
    _ = some (Json.str e2.hostname) := by rw [h]
    _ = bodyField (home e2) "container" := rfl

/-- Witness for C5: same hostname, different clock readings. -/
theorem container_stable_witness :
    ("pod-7" : String) = "pod-7" ∧
    bodyField (home ⟨"pod-7", ⟨2026, 10, 12, 7, 30, 15, 1⟩⟩) "container" =
      bodyField (home ⟨"pod-7", ⟨2026, 10, 12, 9, 0, 0, 2⟩⟩) "container" :=
  ⟨rfl, container_stable ⟨"pod-7", ⟨2026, 10, 12, 7, 30, 15, 1⟩⟩
    ⟨"pod-7", ⟨2026, 10, 12, 9, 0, 0, 2⟩⟩ rfl⟩

/-- C6: handling any request leaves the application state unchanged —
each dispatch preserves the state, and so does serving any whole stream
of requests (in particular, any number of repeated identical ones). -/
theorem handlers_mutate_nothing :
    (∀ st env req, (dispatch st env req).1 = st) ∧
    (∀ st l, (serve st l).1 = st) :=
  ⟨dispatch_fst, serve_fst⟩

/-- C7: a path that is neither `/` nor `/health` matches no registered
rule, no handler runs, and the framework's default 404 is returned. -/
theorem undefined_path_404 (env : HostEnv) (req : Request)
    (h1 : req.path ≠ "/") (h2 : req.path ≠ "/health") :
    findHandler initialApp req.path = none ∧
    dispatch initialApp env req = (initialApp, notFound) ∧
    notFound.status = 404 := by
  have e1 : (req.path == "/") = false := beq_eq_false_iff_ne.mpr h1
  have e2 : (req.path == "/health") = false := beq_eq_false_iff_ne.mpr h2
  have hf : findHandler initialApp req.path = none := by
    simp [findHandler, initialApp, List.lookup, e1, e2]
  exact ⟨hf, by simp [dispatch, hf], rfl⟩

/-- Witness for C7 at the spec's example path `/nonexistent`. -/
theorem undefined_path_404_witness :
    ("/nonexistent" : String) ≠ "/" ∧ ("/nonexistent" : String) ≠ "/health" ∧
    (findHandler initialApp "/nonexistent" = none ∧
     dispatch initialApp ⟨"web", ⟨2026, 10, 12, 7, 30, 15, 1⟩⟩
       ⟨"/nonexistent", "GET", [], "", ""⟩ = (initialApp, notFound) ∧
     notFound.status = 404) :=
  ⟨by decide, by decide,
    undefined_path_404 ⟨"web", ⟨2026, 10, 12, 7, 30, 15, 1⟩⟩
      ⟨"/nonexistent", "GET", [], "", ""⟩ (by decide) (by decide)⟩

/-- C8: the start operation binds `0.0.0.0` on fixed port 5000; the
configuration is independent of environment variables and command-line
arguments, and the server answers every request of any incoming stream,
stopping only when the stream itself ends. -/
theorem startup_binds_fixed_port :
    (∀ e a, mainConfig e a = { host := "0.0.0.0", port := 5000, debug := true }) ∧
    (mainConfig [] []).host = "0.0.0.0" ∧
    (mainConfig [] []).port = 5000 ∧
    (∀ st l, (serve st l).2.length = l.length) :=
  ⟨fun _ _ => rfl, rfl, rfl, serve_length⟩

/-- C9: the timestamp served by `/` is rendered from a naive wall-clock
datetime: the string contains no `Z` and no `+`, and no `-` after the
date part, so it carries no timezone offset or UTC designator. -/
theorem timestamp_has_no_timezone (env : HostEnv) :
    bodyField (home env) "timestamp" = some (Json.str (isoformat env.now)) ∧
    noTzDesignator (isoformat env.now) = true := by
  refine ⟨rfl, ?_⟩
  obtain ⟨hostname, y, mo, da, hh, mi, ss, us⟩ := env
  by_cases h0 : us = 0
  · simp [noTzDesignator, isoformat, isoformatChars, pad4, pad2, pad6, h0]
  · simp [noTzDesignator, isoformat, isoformatChars, pad4, pad2, pad6, h0]

/-- C10: the response to a request depends only on its path and the
observed host state — any two requests with equal paths, however their
methods, headers, query strings or bodies differ, get equal responses. -/
theorem response_ignores_request_content (env : HostEnv) (r1 r2 : Request)
    (h : r1.path = r2.path) :
    dispatch initialApp env r1 = dispatch initialApp env r2 := by
  unfold dispatch findHandler
  rw [h]

/-- Witness for C10: same path, different method, headers and body. -/
theorem response_ignores_request_content_witness :
    ("/" : String) = "/" ∧
    dispatch initialApp ⟨"web", ⟨2026, 10, 12, 7, 30, 15, 1⟩⟩
      ⟨"/", "GET", [("Accept", "text/html")], "a=1", ""⟩ =
    dispatch initialApp ⟨"web", ⟨2026, 10, 12, 7, 30, 15, 1⟩⟩
      ⟨"/", "POST", [], "", "payload"⟩ :=
  ⟨rfl, response_ignores_request_content ⟨"web", ⟨2026, 10, 12, 7, 30, 15, 1⟩⟩
    ⟨"/", "GET", [("Accept", "text/html")], "a=1", ""⟩
    ⟨"/", "POST", [], "", "payload"⟩ rfl⟩
